import Mathlib

/-!
Verification development for the lab-infra repository: an AWS CDK
application consisting of an entry point (bin/lab-infra.ts) that
instantiates three stacks — NetworkStack (lib/network-stack.ts),
FargateServiceStack and PipelineStack (lib/fargate-service-stack.ts and
lib/pipeline-stack.ts) — against the external cloud framework.

The application is embedded shallowly as a pure function from the process
environment (the only input the code reads) to the flat trace of
constructor and method calls it issues, each call carrying the parameter
record transcribed from the source. Framework-owned behaviour that the
properties depend on (subnet provisioning of ec2.Vpc, routing of subnet
types, CIDR syntax, Fargate cpu/memory rows) is modelled in clearly
marked definitions.
-/

namespace LabInfra

/-! ## Framework enumeration values used by the source -/

/-- ec2.SubnetType values of the framework (the source uses PUBLIC and
PRIVATE_ISOLATED; PRIVATE_WITH_EGRESS is the framework's NAT-routed kind). -/
inductive SubnetType
  | PUBLIC
  | PRIVATE_WITH_EGRESS
  | PRIVATE_ISOLATED
  deriving DecidableEq

inductive RemovalPolicy
  | DESTROY
  | RETAIN
  deriving DecidableEq

inductive RetentionDays
  | ONE_WEEK
  deriving DecidableEq

inductive BucketEncryption
  | S3_MANAGED
  deriving DecidableEq

inductive BlockPublicAccess
  | BLOCK_ALL
  deriving DecidableEq

inductive ComputeType
  | SMALL
  deriving DecidableEq

inductive BuildImage
  | AMAZON_LINUX_2_5
  deriving DecidableEq

inductive Effect
  | ALLOW
  deriving DecidableEq

inductive S3Trigger
  | POLL
  deriving DecidableEq

inductive FargatePlatformVersion
  | LATEST
  deriving DecidableEq

inductive Protocol
  | TCP
  deriving DecidableEq

inductive Peer
  | anyIpv4
  deriving DecidableEq

/-- cdk.Duration values: seconds(60), minutes(15), days(30) in the source. -/
inductive Duration
  | seconds (n : Nat)
  | minutes (n : Nat)
  | days (n : Nat)
  deriving DecidableEq

/-- A piece of a string that may contain deploy-time tokens: cdk.Aws.ACCOUNT_ID,
cdk.Aws.REGION, a subnet's availabilityZone, or a resource ARN reference
(bucket.bucketArn, project.projectArn), all unresolved at construction time. -/
inductive SToken
  | lit (s : String)
  | awsAccountId
  | awsRegion
  | subnetAz (t : SubnetType) (i : Nat)
  | bucketArn (construct : String)
  | projectArn (construct : String)
  deriving DecidableEq

/-- A construction-time string with embedded deploy-time tokens. -/
abbrev TokenStr := List SToken

/-! ## The process environment and the entry point's env record -/

/-- process.env of the Node.js run: each variable is present with a value or
absent. -/
def ProcessEnv := String → Option String

/-- The JavaScript || operator on a string-or-undefined left operand: the
right operand is used when the left is undefined or the empty string (the
falsy strings). -/
def tsOr : Option String → String → String
  | none, d => d
  | some s, d => if s = "" then d else s

/-- The env record the entry point builds and passes to every stack. -/
structure StackEnv where
  account : Option String
  region : String
  deriving DecidableEq

/-- bin/lab-infra.ts: const env = \x7b account: process.env.CDK_DEFAULT_ACCOUNT,
region: process.env.CDK_DEFAULT_REGION || "ap-northeast-1" \x7d. -/
def mkEnv (p : ProcessEnv) : StackEnv :=
  { account := p "CDK_DEFAULT_ACCOUNT"
  , region := tsOr (p "CDK_DEFAULT_REGION") "ap-northeast-1" }

/-! ## Parameter records of the constructor calls -/

/-- cdk.StackProps as passed by the entry point: env plus a description. -/
structure StackProps where
  env : StackEnv
  description : String
  deriving DecidableEq

/-- A cross-stack reference to a constructed VPC (networkStack.vpc). -/
structure VpcRef where
  stack : String
  construct : String
  deriving DecidableEq

/-- FargateServiceStackProps of lib/fargate-service-stack.ts: StackProps
extended with the required vpc property. -/
structure FargateServiceStackProps where
  env : StackEnv
  description : String
  vpc : VpcRef
  deriving DecidableEq

/-- One entry of ec2.Vpc's subnetConfiguration. -/
structure SubnetConfig where
  cidrMask : Nat
  name : String
  subnetType : SubnetType
  deriving DecidableEq

/-- The props of the ec2.Vpc constructor call in NetworkStack. -/
structure VpcProps where
  cidr : String
  maxAzs : Nat
  subnetConfiguration : List SubnetConfig
  natGateways : Nat
  deriving DecidableEq

/-- The attribute a CfnOutput's value refers to. -/
inductive Attr
  | vpcId
  | vpcCidrBlock
  | subnetId (t : SubnetType) (i : Nat)
  | clusterName
  | clusterArn
  | serviceName
  | serviceArn
  | taskDefinitionArn
  | logGroupName
  | pipelineName
  | pipelineArn
  | sourceBucketName
  | buildProjectName
  deriving DecidableEq

/-- The props of a cdk.CfnOutput call. -/
structure CfnOutputProps where
  value : Attr
  description : TokenStr
  exportName : String
  deriving DecidableEq

structure LogGroupProps where
  logGroupName : String
  retention : RetentionDays
  removalPolicy : RemovalPolicy
  deriving DecidableEq

structure ClusterProps where
  clusterName : String
  vpc : VpcRef
  containerInsights : Bool
  deriving DecidableEq

/-- iam.Role props: assumedBy carries the ServicePrincipal's service name. -/
structure RoleProps where
  roleName : String
  assumedBy : String
  description : String
  deriving DecidableEq

/-- ecs.FargateTaskDefinition props; the roles are references to the
constructs created just before. -/
structure FargateTaskDefinitionProps where
  family : String
  cpu : Nat
  memoryLimitMiB : Nat
  executionRole : String
  taskRole : String
  deriving DecidableEq

/-- ecs.LogDrivers.awsLogs options. -/
structure AwsLogDriverProps where
  streamPrefix : String
  logGroup : String
  deriving DecidableEq

/-- taskDefinition.addContainer props. -/
structure ContainerProps where
  containerName : String
  image : String
  memoryLimitMiB : Nat
  essential : Bool
  logging : AwsLogDriverProps
  environment : List (String × String)
  deriving DecidableEq

structure PortMapping where
  containerPort : Nat
  protocol : Protocol
  name : String
  deriving DecidableEq

structure SecurityGroupProps where
  securityGroupName : String
  vpc : VpcRef
  description : String
  allowAllOutbound : Bool
  deriving DecidableEq

structure PortSpec where
  protocol : Protocol
  port : Nat
  deriving DecidableEq

/-- One addIngressRule call's arguments: peer, port, description. -/
structure IngressRule where
  peer : Peer
  port : PortSpec
  description : String
  deriving DecidableEq

structure SubnetSelection where
  subnetType : SubnetType
  deriving DecidableEq

/-- ecs.FargateService props. -/
structure FargateServiceProps where
  serviceName : String
  cluster : String
  taskDefinition : String
  desiredCount : Nat
  vpcSubnets : SubnetSelection
  securityGroups : List String
  assignPublicIp : Bool
  platformVersion : FargatePlatformVersion
  maxHealthyPercent : Nat
  minHealthyPercent : Nat
  healthCheckGracePeriod : Duration
  deriving DecidableEq

structure LifecycleRule where
  id : String
  enabled : Bool
  expiration : Duration
  deriving DecidableEq

/-- s3.Bucket props (lifecycleRules is empty where the source omits it). -/
structure BucketProps where
  bucketName : TokenStr
  versioned : Bool
  encryption : BucketEncryption
  blockPublicAccess : BlockPublicAccess
  removalPolicy : RemovalPolicy
  autoDeleteObjects : Bool
  lifecycleRules : List LifecycleRule
  deriving DecidableEq

structure PolicyStatement where
  effect : Effect
  actions : List String
  resources : List TokenStr
  deriving DecidableEq

structure BuildEnvironment where
  buildImage : BuildImage
  computeType : ComputeType
  privileged : Bool
  deriving DecidableEq

structure InstallPhase where
  runtimeVersions : List (String × String)
  commands : List String
  deriving DecidableEq

structure CommandPhase where
  commands : List String
  deriving DecidableEq

structure ArtifactsSpec where
  files : List String
  baseDirectory : String
  deriving DecidableEq

structure CacheSpec where
  paths : List String
  deriving DecidableEq

/-- The object given to codebuild.BuildSpec.fromObject. -/
structure BuildSpecObj where
  version : String
  install : InstallPhase
  preBuild : CommandPhase
  build : CommandPhase
  postBuild : CommandPhase
  artifacts : ArtifactsSpec
  cache : CacheSpec
  deriving DecidableEq

/-- codebuild.Project props. -/
structure ProjectProps where
  projectName : String
  description : String
  environment : BuildEnvironment
  role : String
  timeout : Duration
  buildSpec : BuildSpecObj
  deriving DecidableEq

structure PipelineProps where
  pipelineName : String
  role : String
  artifactBucket : String
  restartExecutionOnUpdate : Bool
  deriving DecidableEq

/-- buildOutput.atPath(file): an artifact-relative template location. -/
structure TemplatePath where
  artifact : String
  path : String
  deriving DecidableEq

/-- The pipeline actions the source instantiates. -/
inductive PipelineAction
  | s3Source (actionName : String) (bucket : String) (bucketKey : String)
      (output : String) (trigger : S3Trigger)
  | codeBuild (actionName : String) (project : String) (input : String)
      (outputs : List String)
  | cfnCreateUpdateStack (actionName : String) (stackName : String)
      (templatePath : TemplatePath) (adminPermissions : Bool) (runOrder : Nat)
  deriving DecidableEq

/-- One pipeline.addStage argument. -/
structure StageProps where
  stageName : String
  actions : List PipelineAction
  deriving DecidableEq

/-! ## The calls the application issues -/

/-- One constructor or method call of the application, with the parameter
record the source passes. Every resource-creating case carries the parameter
object of the corresponding external-framework constructor. -/
inductive Call
  | newApp
  | newNetworkStack (id : String) (props : StackProps)
  | newFargateServiceStack (id : String) (props : FargateServiceStackProps)
  | newPipelineStack (id : String) (props : StackProps)
  | addDependency (src : String) (tgt : String)
  | tagAdd (key : String) (value : String)
  | newVpc (id : String) (props : VpcProps)
  | newCfnOutput (id : String) (props : CfnOutputProps)
  | newLogGroup (id : String) (props : LogGroupProps)
  | newCluster (id : String) (props : ClusterProps)
  | newRole (id : String) (props : RoleProps)
  | addManagedPolicy (role : String) (policyName : String)
  | newFargateTaskDefinition (id : String) (props : FargateTaskDefinitionProps)
  | addContainer (id : String) (props : ContainerProps)
  | addPortMappings (container : String) (pm : PortMapping)
  | newSecurityGroup (id : String) (props : SecurityGroupProps)
  | addIngressRule (group : String) (rule : IngressRule)
  | newFargateService (id : String) (props : FargateServiceProps)
  | newBucket (id : String) (props : BucketProps)
  | addToPolicy (role : String) (stmt : PolicyStatement)
  | newProject (id : String) (props : ProjectProps)
  | newPipeline (id : String) (props : PipelineProps)
  | newArtifact (name : String)
  | addStage (pipeline : String) (stage : StageProps)
  deriving DecidableEq

/-! ## NetworkStack (lib/network-stack.ts) -/

/-- The props of new ec2.Vpc(this, "LabInfraVpc", ...). -/
def labInfraVpcProps : VpcProps :=
  { cidr := "10.0.0.0/16"
  , maxAzs := 2
  , subnetConfiguration :=
      [ { cidrMask := 24, name := "PublicSubnet", subnetType := SubnetType.PUBLIC }
      , { cidrMask := 24, name := "PrivateSubnet", subnetType := SubnetType.PRIVATE_ISOLATED } ]
  , natGateways := 0 }

/-- Modelled framework behaviour of ec2.Vpc: one subnet is provisioned per
subnetConfiguration entry per availability zone used, and with an explicit
maxAzs the construct uses that many zones (the regions targeted here have at
least two). -/
def vpcAzCount (props : VpcProps) : Nat := props.maxAzs

/-- Number of public subnets the framework provisions for the given props. -/
def vpcPublicSubnetCount (props : VpcProps) : Nat :=
  (props.subnetConfiguration.filter
    (fun sc => sc.subnetType == SubnetType.PUBLIC)).length * vpcAzCount props

/-- Number of isolated subnets the framework provisions for the given props. -/
def vpcIsolatedSubnetCount (props : VpcProps) : Nat :=
  (props.subnetConfiguration.filter
    (fun sc => sc.subnetType == SubnetType.PRIVATE_ISOLATED)).length * vpcAzCount props

/-- The CfnOutput calls of NetworkStack: VpcId, VpcCidr, then one output per
public subnet (forEach over vpc.publicSubnets) and one per isolated subnet
(forEach over vpc.isolatedSubnets). -/
def networkStackOutputCalls (props : VpcProps) : List Call :=
  [ Call.newCfnOutput "VpcId"
      { value := Attr.vpcId
      , description := [SToken.lit "作成されたVPCのID"]
      , exportName := "LabInfra-VpcId" }
  , Call.newCfnOutput "VpcCidr"
      { value := Attr.vpcCidrBlock
      , description := [SToken.lit "VPCのCIDRブロック"]
      , exportName := "LabInfra-VpcCidr" } ]
  ++ (List.range (vpcPublicSubnetCount props)).map (fun i =>
      Call.newCfnOutput ("PublicSubnet" ++ toString (i + 1) ++ "Id")
        { value := Attr.subnetId SubnetType.PUBLIC i
        , description :=
            [ SToken.lit ("パブリックサブネット" ++ toString (i + 1) ++ "のID (AZ: ")
            , SToken.subnetAz SubnetType.PUBLIC i
            , SToken.lit ")" ]
        , exportName := "LabInfra-PublicSubnet" ++ toString (i + 1) ++ "Id" })
  ++ (List.range (vpcIsolatedSubnetCount props)).map (fun i =>
      Call.newCfnOutput ("PrivateSubnet" ++ toString (i + 1) ++ "Id")
        { value := Attr.subnetId SubnetType.PRIVATE_ISOLATED i
        , description :=
            [ SToken.lit ("プライベートサブネット" ++ toString (i + 1) ++ "のID (AZ: ")
            , SToken.subnetAz SubnetType.PRIVATE_ISOLATED i
            , SToken.lit ")" ]
        , exportName := "LabInfra-PrivateSubnet" ++ toString (i + 1) ++ "Id" })

/-- The calls the NetworkStack constructor body issues. -/
def networkStackCalls : List Call :=
  Call.newVpc "LabInfraVpc" labInfraVpcProps :: networkStackOutputCalls labInfraVpcProps

/-! ## FargateServiceStack (lib/fargate-service-stack.ts) -/

/-- The vpc reference handed to FargateServiceStack: networkStack.vpc. -/
def networkVpcRef : VpcRef :=
  { stack := "LabInfraNetworkStack", construct := "LabInfraVpc" }

def labInfraLogGroupProps : LogGroupProps :=
  { logGroupName := "/aws/ecs/lab-infra"
  , retention := RetentionDays.ONE_WEEK
  , removalPolicy := RemovalPolicy.DESTROY }

def labInfraClusterProps : ClusterProps :=
  { clusterName := "lab-infra-cluster"
  , vpc := networkVpcRef
  , containerInsights := false }

def taskExecutionRoleProps : RoleProps :=
  { roleName := "LabInfraTaskExecutionRole"
  , assumedBy := "ecs-tasks.amazonaws.com"
  , description := "ECS Fargate タスク実行用のIAMロール" }

def taskRoleProps : RoleProps :=
  { roleName := "LabInfraTaskRole"
  , assumedBy := "ecs-tasks.amazonaws.com"
  , description := "ECS Fargate タスク内のアプリケーション用のIAMロール" }

def labInfraTaskDefinitionProps : FargateTaskDefinitionProps :=
  { family := "lab-infra-task"
  , cpu := 256
  , memoryLimitMiB := 512
  , executionRole := "LabInfraTaskExecutionRole"
  , taskRole := "LabInfraTaskRole" }

def labInfraContainerProps : ContainerProps :=
  { containerName := "lab-infra-container"
  , image := "amazon/amazon-ecs-sample"
  , memoryLimitMiB := 512
  , essential := true
  , logging := { streamPrefix := "lab-infra", logGroup := "LabInfraLogGroup" }
  , environment := [("APP_NAME", "LabInfra"), ("ENVIRONMENT", "development")] }

def labInfraPortMapping : PortMapping :=
  { containerPort := 80, protocol := Protocol.TCP, name := "http" }

def labInfraSecurityGroupProps : SecurityGroupProps :=
  { securityGroupName := "lab-infra-fargate-sg"
  , vpc := networkVpcRef
  , description := "Lab Infra Fargate サービス用のセキュリティグループ"
  , allowAllOutbound := true }

/-- The single addIngressRule call: anyIpv4, TCP 80. -/
def httpIngressRule : IngressRule :=
  { peer := Peer.anyIpv4
  , port := { protocol := Protocol.TCP, port := 80 }
  , description := "HTTP traffic from anywhere" }

def labInfraServiceProps : FargateServiceProps :=
  { serviceName := "lab-infra-service"
  , cluster := "LabInfraCluster"
  , taskDefinition := "LabInfraTaskDefinition"
  , desiredCount := 1
  , vpcSubnets := { subnetType := SubnetType.PUBLIC }
  , securityGroups := ["LabInfraSecurityGroup"]
  , assignPublicIp := true
  , platformVersion := FargatePlatformVersion.LATEST
  , maxHealthyPercent := 200
  , minHealthyPercent := 50
  , healthCheckGracePeriod := Duration.seconds 60 }

/-- The calls the FargateServiceStack constructor body issues, in source
order. -/
def fargateStackCalls : List Call :=
  [ Call.newLogGroup "LabInfraLogGroup" labInfraLogGroupProps
  , Call.newCluster "LabInfraCluster" labInfraClusterProps
  , Call.newRole "LabInfraTaskExecutionRole" taskExecutionRoleProps
  , Call.addManagedPolicy "LabInfraTaskExecutionRole"
      "service-role/AmazonECSTaskExecutionRolePolicy"
  , Call.newRole "LabInfraTaskRole" taskRoleProps
  , Call.newFargateTaskDefinition "LabInfraTaskDefinition" labInfraTaskDefinitionProps
  , Call.addContainer "LabInfraContainer" labInfraContainerProps
  , Call.addPortMappings "LabInfraContainer" labInfraPortMapping
  , Call.newSecurityGroup "LabInfraSecurityGroup" labInfraSecurityGroupProps
  , Call.addIngressRule "LabInfraSecurityGroup" httpIngressRule
  , Call.newFargateService "LabInfraService" labInfraServiceProps
  , Call.newCfnOutput "ClusterName"
      { value := Attr.clusterName
      , description := [SToken.lit "ECSクラスター名"]
      , exportName := "LabInfra-ClusterName" }
  , Call.newCfnOutput "ClusterArn"
      { value := Attr.clusterArn
      , description := [SToken.lit "ECSクラスターのARN"]
      , exportName := "LabInfra-ClusterArn" }
  , Call.newCfnOutput "ServiceName"
      { value := Attr.serviceName
      , description := [SToken.lit "Fargateサービス名"]
      , exportName := "LabInfra-ServiceName" }
  , Call.newCfnOutput "ServiceArn"
      { value := Attr.serviceArn
      , description := [SToken.lit "FargateサービスのARN"]
      , exportName := "LabInfra-ServiceArn" }
  , Call.newCfnOutput "TaskDefinitionArn"
      { value := Attr.taskDefinitionArn
      , description := [SToken.lit "タスク定義のARN"]
      , exportName := "LabInfra-TaskDefinitionArn" }
  , Call.newCfnOutput "LogGroupName"
      { value := Attr.logGroupName
      , description := [SToken.lit "CloudWatch Logsグループ名"]
      , exportName := "LabInfra-LogGroupName" } ]

/-! ## PipelineStack (lib/pipeline-stack.ts) -/

def sourceBucketProps : BucketProps :=
  { bucketName := [SToken.lit "lab-infra-source-", SToken.awsAccountId,
      SToken.lit "-", SToken.awsRegion]
  , versioned := true
  , encryption := BucketEncryption.S3_MANAGED
  , blockPublicAccess := BlockPublicAccess.BLOCK_ALL
  , removalPolicy := RemovalPolicy.DESTROY
  , autoDeleteObjects := true
  , lifecycleRules := [] }

def artifactBucketProps : BucketProps :=
  { bucketName := [SToken.lit "lab-infra-artifacts-", SToken.awsAccountId,
      SToken.lit "-", SToken.awsRegion]
  , versioned := true
  , encryption := BucketEncryption.S3_MANAGED
  , blockPublicAccess := BlockPublicAccess.BLOCK_ALL
  , removalPolicy := RemovalPolicy.DESTROY
  , autoDeleteObjects := true
  , lifecycleRules :=
      [ { id := "DeleteOldArtifacts", enabled := true, expiration := Duration.days 30 } ] }

def codeBuildRoleProps : RoleProps :=
  { roleName := "LabInfraCodeBuildRole"
  , assumedBy := "codebuild.amazonaws.com"
  , description := "CDK ビルド用のCodeBuildサービスロール" }

def codeBuildLogsPolicy : PolicyStatement :=
  { effect := Effect.ALLOW
  , actions := ["logs:CreateLogGroup", "logs:CreateLogStream", "logs:PutLogEvents"]
  , resources :=
      [ [ SToken.lit "arn:aws:logs:", SToken.awsRegion, SToken.lit ":",
          SToken.awsAccountId, SToken.lit ":log-group:/aws/codebuild/*" ] ] }

def codeBuildS3Policy : PolicyStatement :=
  { effect := Effect.ALLOW
  , actions := ["s3:GetObject", "s3:GetObjectVersion", "s3:PutObject"]
  , resources :=
      [ [SToken.bucketArn "LabInfraSourceBucket", SToken.lit "/*"]
      , [SToken.bucketArn "LabInfraArtifactBucket", SToken.lit "/*"] ] }

def labInfraBuildSpec : BuildSpecObj :=
  { version := "0.2"
  , install :=
      { runtimeVersions := [("nodejs", "18")]
      , commands :=
          [ "echo \"=== Installing dependencies ===\""
          , "npm install -g aws-cdk@2.87.0"
          , "npm ci" ] }
  , preBuild :=
      { commands :=
          [ "echo \"=== Pre-build phase ===\""
          , "node --version"
          , "npm --version"
          , "cdk --version"
          , "echo \"Current directory: $(pwd)\""
          , "ls -la" ] }
  , build :=
      { commands :=
          [ "echo \"=== Build phase ===\""
          , "echo \"Running CDK synth...\""
          , "cdk synth --all"
          , "echo \"CDK synth completed successfully\""
          , "ls -la cdk.out/" ] }
  , postBuild :=
      { commands :=
          [ "echo \"=== Post-build phase ===\""
          , "echo \"Build completed at $(date)\"" ] }
  , artifacts := { files := ["**/*"], baseDirectory := "cdk.out" }
  , cache := { paths := ["node_modules/**/*"] } }

def labInfraBuildProjectProps : ProjectProps :=
  { projectName := "lab-infra-build"
  , description := "Lab Infra CDK プロジェクトのビルド"
  , environment :=
      { buildImage := BuildImage.AMAZON_LINUX_2_5
      , computeType := ComputeType.SMALL
      , privileged := false }
  , role := "LabInfraCodeBuildRole"
  , timeout := Duration.minutes 15
  , buildSpec := labInfraBuildSpec }

def pipelineRoleProps : RoleProps :=
  { roleName := "LabInfraPipelineRole"
  , assumedBy := "codepipeline.amazonaws.com"
  , description := "CI/CDパイプライン用のサービスロール" }

def pipelineS3Policy : PolicyStatement :=
  { effect := Effect.ALLOW
  , actions := ["s3:GetObject", "s3:GetObjectVersion", "s3:PutObject",
      "s3:GetBucketVersioning"]
  , resources :=
      [ [SToken.bucketArn "LabInfraSourceBucket"]
      , [SToken.bucketArn "LabInfraSourceBucket", SToken.lit "/*"]
      , [SToken.bucketArn "LabInfraArtifactBucket"]
      , [SToken.bucketArn "LabInfraArtifactBucket", SToken.lit "/*"] ] }

def pipelineCodeBuildPolicy : PolicyStatement :=
  { effect := Effect.ALLOW
  , actions := ["codebuild:BatchGetBuilds", "codebuild:StartBuild"]
  , resources := [[SToken.projectArn "LabInfraBuildProject"]] }

def pipelineCloudFormationPolicy : PolicyStatement :=
  { effect := Effect.ALLOW
  , actions :=
      [ "cloudformation:CreateStack", "cloudformation:UpdateStack"
      , "cloudformation:DeleteStack", "cloudformation:DescribeStacks"
      , "cloudformation:DescribeStackEvents", "cloudformation:DescribeChangeSet"
      , "cloudformation:CreateChangeSet", "cloudformation:DeleteChangeSet"
      , "cloudformation:ExecuteChangeSet", "cloudformation:GetTemplate"
      , "cloudformation:ValidateTemplate", "iam:PassRole" ]
  , resources := [[SToken.lit "*"]] }

def labInfraPipelineProps : PipelineProps :=
  { pipelineName := "lab-infra-pipeline"
  , role := "LabInfraPipelineRole"
  , artifactBucket := "LabInfraArtifactBucket"
  , restartExecutionOnUpdate := true }

def sourceStage : StageProps :=
  { stageName := "Source"
  , actions :=
      [ PipelineAction.s3Source "S3Source" "LabInfraSourceBucket" "source.zip"
          "SourceOutput" S3Trigger.POLL ] }

def buildStage : StageProps :=
  { stageName := "Build"
  , actions :=
      [ PipelineAction.codeBuild "CDKSynth" "LabInfraBuildProject" "SourceOutput"
          ["BuildOutput"] ] }

def deployStage : StageProps :=
  { stageName := "Deploy"
  , actions :=
      [ PipelineAction.cfnCreateUpdateStack "DeployNetworkStack"
          "LabInfraNetworkStack"
          { artifact := "BuildOutput", path := "LabInfraNetworkStack.template.json" }
          true 1
      , PipelineAction.cfnCreateUpdateStack "DeployFargateServiceStack"
          "LabInfraFargateServiceStack"
          { artifact := "BuildOutput", path := "LabInfraFargateServiceStack.template.json" }
          true 2 ] }

/-- The calls the PipelineStack constructor body issues, in source order. -/
def pipelineStackCalls : List Call :=
  [ Call.newBucket "LabInfraSourceBucket" sourceBucketProps
  , Call.newBucket "LabInfraArtifactBucket" artifactBucketProps
  , Call.newRole "LabInfraCodeBuildRole" codeBuildRoleProps
  , Call.addToPolicy "LabInfraCodeBuildRole" codeBuildLogsPolicy
  , Call.addToPolicy "LabInfraCodeBuildRole" codeBuildS3Policy
  , Call.addManagedPolicy "LabInfraCodeBuildRole" "AdministratorAccess"
  , Call.newProject "LabInfraBuildProject" labInfraBuildProjectProps
  , Call.newRole "LabInfraPipelineRole" pipelineRoleProps
  , Call.addToPolicy "LabInfraPipelineRole" pipelineS3Policy
  , Call.addToPolicy "LabInfraPipelineRole" pipelineCodeBuildPolicy
  , Call.addToPolicy "LabInfraPipelineRole" pipelineCloudFormationPolicy
  , Call.newPipeline "LabInfraPipeline" labInfraPipelineProps
  , Call.newArtifact "SourceOutput"
  , Call.newArtifact "BuildOutput"
  , Call.addStage "LabInfraPipeline" sourceStage
  , Call.addStage "LabInfraPipeline" buildStage
  , Call.addStage "LabInfraPipeline" deployStage
  , Call.newCfnOutput "PipelineName"
      { value := Attr.pipelineName
      , description := [SToken.lit "CodePipeline名"]
      , exportName := "LabInfra-PipelineName" }
  , Call.newCfnOutput "PipelineArn"
      { value := Attr.pipelineArn
      , description := [SToken.lit "CodePipelineのARN"]
      , exportName := "LabInfra-PipelineArn" }
  , Call.newCfnOutput "SourceBucketName"
      { value := Attr.sourceBucketName
      , description := [SToken.lit "ソースコード用S3バケット名"]
      , exportName := "LabInfra-SourceBucketName" }
  , Call.newCfnOutput "BuildProjectName"
      { value := Attr.buildProjectName
      , description := [SToken.lit "CodeBuildプロジェクト名"]
      , exportName := "LabInfra-BuildProjectName" } ]

/-! ## The entry point (bin/lab-infra.ts) -/

def networkStackProps (e : StackEnv) : StackProps :=
  { env := e
  , description := "学習用ラボ - ネットワーク基盤スタック（VPC、サブネット）" }

def fargateServiceStackProps (e : StackEnv) : FargateServiceStackProps :=
  { env := e
  , description := "学習用ラボ - ECS Fargateサービススタック"
  , vpc := networkVpcRef }

def pipelineStackProps (e : StackEnv) : StackProps :=
  { env := e
  , description := "学習用ラボ - CI/CDパイプラインスタック" }

/-- The full flat sequence of calls the entry point issues for a given env
record: app creation, the three stack constructors (each running its body),
the explicit addDependency, and the three tags. -/
def appCalls (e : StackEnv) : List Call :=
  [Call.newApp]
  ++ (Call.newNetworkStack "LabInfraNetworkStack" (networkStackProps e)
        :: networkStackCalls)
  ++ (Call.newFargateServiceStack "LabInfraFargateServiceStack" (fargateServiceStackProps e)
        :: fargateStackCalls)
  ++ (Call.newPipelineStack "LabInfraPipelineStack" (pipelineStackProps e)
        :: pipelineStackCalls)
  ++ [ Call.addDependency "LabInfraFargateServiceStack" "LabInfraNetworkStack"
     , Call.tagAdd "Project" "LabInfra"
     , Call.tagAdd "Purpose" "Learning"
     , Call.tagAdd "Environment" "Development" ]

/-- Running the application on a given process environment: the trace of
every constructor and method call with its parameters. -/
def appTrace (p : ProcessEnv) : List Call :=
  appCalls (mkEnv p)

/-! ## Views of the trace -/

/-- The exportName of every CfnOutput call, in trace order. -/
def exportNamesOf (calls : List Call) : List String :=
  calls.filterMap fun c =>
    match c with
    | Call.newCfnOutput _ props => some props.exportName
    | _ => none

/-- The construct id of every CfnOutput call, in trace order. -/
def outputIdsOf (calls : List Call) : List String :=
  calls.filterMap fun c =>
    match c with
    | Call.newCfnOutput id _ => some id
    | _ => none

/-- The stack constructors the app runs: (class, construct id) pairs. -/
def stackCtorsOf (calls : List Call) : List (String × String) :=
  calls.filterMap fun c =>
    match c with
    | Call.newNetworkStack id _ => some ("NetworkStack", id)
    | Call.newFargateServiceStack id _ => some ("FargateServiceStack", id)
    | Call.newPipelineStack id _ => some ("PipelineStack", id)
    | _ => none

/-- The env record each stack constructor receives, in trace order. -/
def stackEnvsOf (calls : List Call) : List StackEnv :=
  calls.filterMap fun c =>
    match c with
    | Call.newNetworkStack _ props => some props.env
    | Call.newFargateServiceStack _ props => some props.env
    | Call.newPipelineStack _ props => some props.env
    | _ => none

/-- Every declared inter-stack dependency, as (dependent, dependency) pairs:
a cross-stack construct reference handed through stack props (the vpc prop),
or an explicit addDependency call. -/
def declaredDepsOf (calls : List Call) : List (String × String) :=
  calls.filterMap fun c =>
    match c with
    | Call.newFargateServiceStack id props => some (id, props.vpc.stack)
    | Call.addDependency src tgt => some (src, tgt)
    | _ => none

/-- The ingress rules added to any security group, in trace order. -/
def ingressRulesOf (calls : List Call) : List IngressRule :=
  calls.filterMap fun c =>
    match c with
    | Call.addIngressRule _ rule => some rule
    | _ => none

/-- The pipeline stages added, in trace order. -/
def stagesOf (calls : List Call) : List StageProps :=
  calls.filterMap fun c =>
    match c with
    | Call.addStage _ st => some st
    | _ => none

/-- The (stackName, runOrder) pairs of the CloudFormation deploy actions of
the Deploy stage. -/
def stackRunOrdersOf (calls : List Call) : List (String × Nat) :=
  ((stagesOf calls).filter (fun st => st.stageName == "Deploy")).foldr
    (fun st acc =>
      st.actions.filterMap (fun a =>
        match a with
        | PipelineAction.cfnCreateUpdateStack _ sn _ _ ro => some (sn, ro)
        | _ => none) ++ acc) []

/-- Which constructor or method a call invokes, forgetting its parameters. -/
def callName : Call → String
  | Call.newApp => "new cdk.App"
  | Call.newNetworkStack .. => "new NetworkStack"
  | Call.newFargateServiceStack .. => "new FargateServiceStack"
  | Call.newPipelineStack .. => "new PipelineStack"
  | Call.addDependency .. => "addDependency"
  | Call.tagAdd .. => "Tags.add"
  | Call.newVpc .. => "new ec2.Vpc"
  | Call.newCfnOutput .. => "new cdk.CfnOutput"
  | Call.newLogGroup .. => "new logs.LogGroup"
  | Call.newCluster .. => "new ecs.Cluster"
  | Call.newRole .. => "new iam.Role"
  | Call.addManagedPolicy .. => "addManagedPolicy"
  | Call.newFargateTaskDefinition .. => "new ecs.FargateTaskDefinition"
  | Call.addContainer .. => "addContainer"
  | Call.addPortMappings .. => "addPortMappings"
  | Call.newSecurityGroup .. => "new ec2.SecurityGroup"
  | Call.addIngressRule .. => "addIngressRule"
  | Call.newFargateService .. => "new ecs.FargateService"
  | Call.newBucket .. => "new s3.Bucket"
  | Call.addToPolicy .. => "addToPolicy"
  | Call.newProject .. => "new codebuild.Project"
  | Call.newPipeline .. => "new codepipeline.Pipeline"
  | Call.newArtifact .. => "new codepipeline.Artifact"
  | Call.addStage .. => "addStage"

/-- Construction under a framework oracle: the framework either accepts each
constructor or method call or refuses it with the call as the error value.
The repository's code introduces no error construction, throwing, or
catching of its own, so a framework refusal propagates unchanged and
acceptance of every call yields the full trace. -/
def runCalls (ok : Call → Bool) : List Call → Except Call (List Call)
  | [] => Except.ok []
  | c :: cs =>
    if ok c then
      match runCalls ok cs with
      | Except.ok rest => Except.ok (c :: rest)
      | Except.error e => Except.error e
    else Except.error c

/-- Running the whole application under a framework oracle. -/
def runApp (ok : Call → Bool) (p : ProcessEnv) : Except Call (List Call) :=
  runCalls ok (appTrace p)

/-! ## Provider-side validity checks the declared records must meet -/

/-- Split a character list at every occurrence of a separator. -/
def splitOnChar (sep : Char) : List Char → List (List Char)
  | [] => [[]]
  | c :: cs =>
    if c = sep then
      [] :: splitOnChar sep cs
    else
      match splitOnChar sep cs with
      | [] => [[c]]
      | r :: rs => (c :: r) :: rs

/-- The value of a decimal digit character, none for any other character. -/
def charDigit (c : Char) : Option Nat :=
  if 48 ≤ c.toNat ∧ c.toNat ≤ 57 then some (c.toNat - 48) else none

def digitsToNatAux : Nat → List Char → Option Nat
  | acc, [] => some acc
  | acc, c :: cs =>
    match charDigit c with
    | some d => digitsToNatAux (acc * 10 + d) cs
    | none => none

/-- A non-empty all-decimal character list read as a number. -/
def decStrToNat : List Char → Option Nat
  | [] => none
  | cs => digitsToNatAux 0 cs

/-- Modelled provider check: syntactically valid IPv4 CIDR notation
"a.b.c.d/m" with four decimal octets at most 255 and a mask of at most 32
bits. -/
def validCidr (s : String) : Bool :=
  match splitOnChar '/' s.data with
  | [ip, mask] =>
    (match (splitOnChar '.' ip).mapM decStrToNat, decStrToNat mask with
     | some octets, some m =>
        octets.length == 4 && octets.all (fun o => decide (o ≤ 255)) && decide (m ≤ 32)
     | _, _ => false)
  | _ => false

/-- The mask width of a CIDR string, when it parses. -/
def cidrMaskBits (s : String) : Option Nat :=
  match splitOnChar '/' s.data with
  | [_, mask] => decStrToNat mask
  | _ => none

/-- Modelled provider check: the Fargate task cpu/memory row the source's
own comment documents — for cpu 256 the allowed memoryLimitMiB values are
512, 1024 and 2048 (other cpu rows are not used by this configuration). -/
def fargateCpuMemoryValid (cpu mem : Nat) : Bool :=
  cpu == 256 && (mem == 512 || mem == 1024 || mem == 2048)

/-- Modelled framework routing semantics: a PUBLIC subnet routes to the
internet through the VPC's internet gateway, a PRIVATE_WITH_EGRESS subnet
only through a NAT gateway (so never when natGateways = 0), and a
PRIVATE_ISOLATED subnet never. -/
def subnetHasInternetRoute : SubnetType → Nat → Bool
  | SubnetType.PUBLIC, _ => true
  | SubnetType.PRIVATE_WITH_EGRESS, n => n != 0
  | SubnetType.PRIVATE_ISOLATED, _ => false

/-! ## Concrete process environments used as inputs -/

/-- A run with no environment variables set. -/
def envNone : ProcessEnv := fun _ => none

/-- A run with CDK_DEFAULT_REGION set to us-east-1. -/
def envUsEast : ProcessEnv :=
  fun k => if k = "CDK_DEFAULT_REGION" then some "us-east-1" else none

/-- A run with CDK_DEFAULT_REGION set but empty. -/
def envEmptyRegion : ProcessEnv :=
  fun k => if k = "CDK_DEFAULT_REGION" then some "" else none

/-- A run where only an unrelated environment variable is set. -/
def envOther : ProcessEnv :=
  fun k => if k = "OTHER_VAR" then some "x" else none

/-- Every exportName the three stacks declare, in trace order. -/
def labInfraExportNames : List String :=
  [ "LabInfra-VpcId", "LabInfra-VpcCidr"
  , "LabInfra-PublicSubnet1Id", "LabInfra-PublicSubnet2Id"
  , "LabInfra-PrivateSubnet1Id", "LabInfra-PrivateSubnet2Id"
  , "LabInfra-ClusterName", "LabInfra-ClusterArn"
  , "LabInfra-ServiceName", "LabInfra-ServiceArn"
  , "LabInfra-TaskDefinitionArn", "LabInfra-LogGroupName"
  , "LabInfra-PipelineName", "LabInfra-PipelineArn"
  , "LabInfra-SourceBucketName", "LabInfra-BuildProjectName" ]

/-! ## The claims -/

/-- C1: in every run, the only declared inter-stack relations are
FargateServiceStack's dependency on NetworkStack — once through the vpc prop
(networkStack.vpc) and once through the explicit addDependency call — and
the pipeline's Deploy stage deploys LabInfraNetworkStack with runOrder 1
before LabInfraFargateServiceStack with runOrder 2; no other stack pair
declares any dependency (the list of all declared pairs holds only that one
pair). -/
theorem claim1_stack_dependency_graph (p : ProcessEnv) :
    declaredDepsOf (appTrace p) =
      [ ("LabInfraFargateServiceStack", "LabInfraNetworkStack")
      , ("LabInfraFargateServiceStack", "LabInfraNetworkStack") ] ∧
    (appTrace p).count
      (Call.addDependency "LabInfraFargateServiceStack" "LabInfraNetworkStack") = 1 ∧
    (fargateServiceStackProps (mkEnv p)).vpc = networkVpcRef ∧
    (stagesOf (appTrace p)).map (fun st => st.stageName) = ["Source", "Build", "Deploy"] ∧
    stackRunOrdersOf (appTrace p) =
      [("LabInfraNetworkStack", 1), ("LabInfraFargateServiceStack", 2)] :=
  ⟨rfl, rfl, rfl, rfl, rfl⟩

/-- C2: every run constructs exactly the three stacks NetworkStack,
FargateServiceStack and PipelineStack, in that order; the network stack
creates the VPC, the Fargate stack the ECS cluster, task definition and
Fargate service, and the pipeline stack the two S3 buckets, the CodeBuild
project and the CodePipeline — each exactly once, by passing the transcribed
parameter record to the external framework's constructor. -/
theorem claim2_three_stacks (p : ProcessEnv) :
    stackCtorsOf (appTrace p) =
      [ ("NetworkStack", "LabInfraNetworkStack")
      , ("FargateServiceStack", "LabInfraFargateServiceStack")
      , ("PipelineStack", "LabInfraPipelineStack") ] ∧
    (appTrace p).count (Call.newVpc "LabInfraVpc" labInfraVpcProps) = 1 ∧
    (appTrace p).count (Call.newCluster "LabInfraCluster" labInfraClusterProps) = 1 ∧
    (appTrace p).count
      (Call.newFargateTaskDefinition "LabInfraTaskDefinition" labInfraTaskDefinitionProps) = 1 ∧
    (appTrace p).count (Call.newFargateService "LabInfraService" labInfraServiceProps) = 1 ∧
    (appTrace p).count (Call.newBucket "LabInfraSourceBucket" sourceBucketProps) = 1 ∧
    (appTrace p).count (Call.newBucket "LabInfraArtifactBucket" artifactBucketProps) = 1 ∧
    (appTrace p).count (Call.newProject "LabInfraBuildProject" labInfraBuildProjectProps) = 1 ∧
    (appTrace p).count (Call.newPipeline "LabInfraPipeline" labInfraPipelineProps) = 1 :=
  ⟨rfl, rfl, rfl, rfl, rfl, rfl, rfl, rfl, rfl⟩

/-- C3: in every run the stacks declare exactly the named outputs —
NetworkStack: VpcId, VpcCidr and one output per public and per isolated
subnet (two of each for this configuration); FargateServiceStack:
ClusterName, ClusterArn, ServiceName, ServiceArn, TaskDefinitionArn,
LogGroupName; PipelineStack: PipelineName, PipelineArn, SourceBucketName,
BuildProjectName — and every output's exportName starts with "LabInfra-"
and differs from every other output's exportName. -/
theorem claim3_stack_outputs (p : ProcessEnv) :
    outputIdsOf networkStackCalls =
      [ "VpcId", "VpcCidr", "PublicSubnet1Id", "PublicSubnet2Id"
      , "PrivateSubnet1Id", "PrivateSubnet2Id" ] ∧
    (outputIdsOf networkStackCalls).length =
      2 + vpcPublicSubnetCount labInfraVpcProps + vpcIsolatedSubnetCount labInfraVpcProps ∧
    outputIdsOf fargateStackCalls =
      [ "ClusterName", "ClusterArn", "ServiceName", "ServiceArn"
      , "TaskDefinitionArn", "LogGroupName" ] ∧
    outputIdsOf pipelineStackCalls =
      ["PipelineName", "PipelineArn", "SourceBucketName", "BuildProjectName"] ∧
    exportNamesOf (appTrace p) = labInfraExportNames ∧
    labInfraExportNames.all (fun n => "LabInfra-".data.isPrefixOf n.data) = true ∧
    labInfraExportNames.Nodup := by
  refine ⟨rfl, rfl, rfl, rfl, rfl, by decide, by decide⟩

/-- C4, counterexample to the claim as stated: the data-dependent choice
process.env.CDK_DEFAULT_REGION || "ap-northeast-1" at the entry point
changes the parameters the stack constructors receive, so a run with no
environment and a run with CDK_DEFAULT_REGION=us-east-1 make different
calls. -/
theorem claim4_counterexample : appTrace envNone ≠ appTrace envUsEast := by
  intro h
  exact absurd (congrArg stackEnvsOf h) (by decide)

/-- C4, amended: construction is straight-line up to the entry point's env
defaulting — which constructor calls are made (their sequence of
constructors) is the same in every run, and any two runs that agree on the
computed env record make identical calls with identical parameters. -/
theorem claim4_straight_line_construction (p₁ p₂ : ProcessEnv)
    (h : mkEnv p₁ = mkEnv p₂) :
    appTrace p₁ = appTrace p₂ ∧
    (appTrace p₁).map callName = (appTrace envNone).map callName := by
  constructor
  · simp only [appTrace, h]
  · rfl

/-- C4 witness: a run with no environment and a run with an empty
CDK_DEFAULT_REGION compute the same env record and produce identical
traces. -/
theorem claim4_witness :
    appTrace envNone = appTrace envEmptyRegion ∧
    (appTrace envNone).map callName = (appTrace envNone).map callName :=
  claim4_straight_line_construction envNone envEmptyRegion rfl

theorem runCalls_ok (ok : Call → Bool) (cs : List Call)
    (h : ∀ c ∈ cs, ok c = true) : runCalls ok cs = Except.ok cs := by
  induction cs with
  | nil => rfl
  | cons c cs ih =>
    have hc : ok c = true := h c (List.mem_cons_self c cs)
    have hrest := ih (fun d hd => h d (List.mem_cons_of_mem c hd))
    simp [runCalls, hc, hrest]

/-- C5: the repository defines no error taxonomy or recovery of its own:
the only errors in a run are the framework's own refusals (the error value
is the refused call itself), and on every input where the framework accepts
all the constructor calls, construction of all three stacks runs to
completion, returning the full trace without raising or handling any
error. -/
theorem claim5_no_original_errors (ok : Call → Bool) (p : ProcessEnv)
    (h : ∀ c ∈ appTrace p, ok c = true) :
    runApp ok p = Except.ok (appTrace p) :=
  runCalls_ok ok (appTrace p) h

/-- C5 witness: with a framework that accepts every call and no environment
variables set, construction completes with the full trace. -/
theorem claim5_witness :
    runApp (fun _ => true) envNone = Except.ok (appTrace envNone) :=
  claim5_no_original_errors (fun _ => true) envNone (fun _ _ => rfl)

/-- C6: the declared records satisfy the provider invariants the spec cites:
the VPC CIDR "10.0.0.0/16" is syntactically valid with a 16-bit mask, every
subnet cidrMask (24) lies between the VPC's 16-bit mask and 32, the task
definition's cpu 256 / memoryLimitMiB 512 is a compatible combination (for
cpu 256 exactly 512, 1024 and 2048 MiB are allowed), and the container's
memoryLimitMiB does not exceed the task's. -/
theorem claim6_provider_invariants :
    validCidr labInfraVpcProps.cidr = true ∧
    cidrMaskBits labInfraVpcProps.cidr = some 16 ∧
    labInfraVpcProps.subnetConfiguration.all
      (fun sc => decide (16 ≤ sc.cidrMask) && decide (sc.cidrMask ≤ 32)) = true ∧
    fargateCpuMemoryValid labInfraTaskDefinitionProps.cpu
      labInfraTaskDefinitionProps.memoryLimitMiB = true ∧
    (∀ m : Nat, fargateCpuMemoryValid 256 m = true ↔ (m = 512 ∨ m = 1024 ∨ m = 2048)) ∧
    labInfraContainerProps.memoryLimitMiB ≤ labInfraTaskDefinitionProps.memoryLimitMiB := by
  refine ⟨by decide, by decide, by decide, by decide, ?_, by decide⟩
  intro m
  simp [fargateCpuMemoryValid, or_assoc]

/-- C7: the construction is one sequential pass (a single deterministic call
list) issuing no concurrent operations, and any two runs that agree on the
values of CDK_DEFAULT_ACCOUNT and CDK_DEFAULT_REGION — the only environment
variables the code reads — produce the identical declared configuration:
every constructor call and every parameter value is the same. -/
theorem claim7_env_noninterference (p₁ p₂ : ProcessEnv)
    (h1 : p₁ "CDK_DEFAULT_ACCOUNT" = p₂ "CDK_DEFAULT_ACCOUNT")
    (h2 : p₁ "CDK_DEFAULT_REGION" = p₂ "CDK_DEFAULT_REGION") :
    appTrace p₁ = appTrace p₂ := by
  simp only [appTrace, mkEnv, h1, h2]

/-- C7 witness: a run with nothing set and a run where only an unrelated
variable is set agree on the two read variables and produce the same
trace. -/
theorem claim7_witness : appTrace envNone = appTrace envOther :=
  claim7_env_noninterference envNone envOther rfl rfl

/-- C8: when CDK_DEFAULT_REGION is unset or empty the env record's region
defaults to "ap-northeast-1", the account is passed through unchanged
(undefined stays undefined), and all three stack constructors receive the
same env record. -/
theorem claim8_region_default (p : ProcessEnv)
    (h : p "CDK_DEFAULT_REGION" = none ∨ p "CDK_DEFAULT_REGION" = some "") :
    (mkEnv p).region = "ap-northeast-1" ∧
    (mkEnv p).account = p "CDK_DEFAULT_ACCOUNT" ∧
    stackEnvsOf (appTrace p) = [mkEnv p, mkEnv p, mkEnv p] := by
  refine ⟨?_, rfl, rfl⟩
  rcases h with h | h <;> simp [mkEnv, tsOr, h]

/-- C8 witness: a run with CDK_DEFAULT_REGION present but empty defaults to
ap-northeast-1 and hands the same env record to all three stacks. -/
theorem claim8_witness :
    (mkEnv envEmptyRegion).region = "ap-northeast-1" ∧
    (mkEnv envEmptyRegion).account = envEmptyRegion "CDK_DEFAULT_ACCOUNT" ∧
    stackEnvsOf (appTrace envEmptyRegion) =
      [mkEnv envEmptyRegion, mkEnv envEmptyRegion, mkEnv envEmptyRegion] :=
  claim8_region_default envEmptyRegion (Or.inr rfl)

/-- C9: in every run exactly one ingress rule is added anywhere — TCP port
80 from any IPv4 address — the service's security group allows all outbound
traffic, and no rule opens any other port or protocol (in particular not
443). -/
theorem claim9_single_http_ingress (p : ProcessEnv) :
    ingressRulesOf (appTrace p) = [httpIngressRule] ∧
    httpIngressRule.peer = Peer.anyIpv4 ∧
    httpIngressRule.port = { protocol := Protocol.TCP, port := 80 } ∧
    labInfraSecurityGroupProps.allowAllOutbound = true ∧
    (ingressRulesOf (appTrace p)).all
      (fun r => r.port.port == 80 && (r.port.protocol == Protocol.TCP)) = true ∧
    (ingressRulesOf (appTrace p)).all (fun r => r.port.port != 443) = true :=
  ⟨rfl, rfl, rfl, rfl, rfl, rfl⟩

/-- C10: the network declares zero NAT gateways and its non-public subnet
entry is PRIVATE_ISOLATED, so under the framework's routing semantics, with
natGateways = 0, a subnet has an internet route exactly when it is PUBLIC
(isolated subnets have none); the Fargate service is placed in the PUBLIC
subnets with a public IP assigned. -/
theorem claim10_network_isolation (p : ProcessEnv) :
    labInfraVpcProps.natGateways = 0 ∧
    labInfraVpcProps.subnetConfiguration.all
      (fun sc => sc.subnetType == SubnetType.PUBLIC ||
        sc.subnetType == SubnetType.PRIVATE_ISOLATED) = true ∧
    labInfraVpcProps.subnetConfiguration.all
      (fun sc => subnetHasInternetRoute sc.subnetType labInfraVpcProps.natGateways ==
        (sc.subnetType == SubnetType.PUBLIC)) = true ∧
    (∀ st : SubnetType,
      subnetHasInternetRoute st labInfraVpcProps.natGateways = true ↔
        st = SubnetType.PUBLIC) ∧
    labInfraServiceProps.vpcSubnets = { subnetType := SubnetType.PUBLIC } ∧
    labInfraServiceProps.assignPublicIp = true ∧
    (appTrace p).count (Call.newFargateService "LabInfraService" labInfraServiceProps) = 1 := by
  refine ⟨rfl, rfl, rfl, ?_, rfl, rfl, rfl⟩
  intro st
  cases st <;> decide

end LabInfra
